import Mathlib

/-!
# Claro assistant front end (`frontend/js/app.js`): state, tasks and persistence

A shallow embedding of the client-side state handling of `app.js`:
the global `appState`, the chat functions (`sendMessage`, `addMessage`, `callAPI`),
the task functions (`isTaskMessage`, `processTask`, `deleteTask`), the
`localStorage` functions (`saveToLocalStorage`, `loadFromLocalStorage`) and the
reset functions (`clearChat`, `clearAllTasks`).

Conventions of the embedding.

* A JavaScript string is its sequence of UTF-16 code units (`JSString`).
* `String.prototype.toLowerCase` is a platform builtin; every function that calls
  it takes it as the parameter `toLowerCase`, so the results hold for any
  lower-casing function.  `asciiLower` is the instance used on ASCII inputs.
* `new Date()` readings are passed in as arguments (`now`, `stamps`).
* `confirm(...)` dialogs are passed in as the Boolean the user answered.
* The outcome of `fetch` is passed in as a `FetchOutcome`.
* `localStorage` holds one item; the stored text is kept in the form
  `JSON.parse` gives for it (`Stored`).  `JSON.stringify` followed by
  `JSON.parse` is the identity on the data of this program (strings, Booleans,
  arrays and plain objects).  A `setItem` that throws is the flag `storageFull`.
* The promise chain of `sendMessage` runs after the network round trip, on whatever
  state it finds then; it is the separate function `sendMessage_settled`.
* Of the page, the chat message list, the chat/welcome switch, the loading overlay
  and the drawn task lists are kept.  The text input, the sidebar, the action menu
  and the generated HTML are not part of the state.
-/

namespace ClaroAsistente

/-! ## JavaScript strings and arrays -/

/-- A JavaScript string: the list of its UTF-16 code units. -/
abbrev JSString := List Nat

/-- UTF-16 code units of one Unicode scalar value. -/
def utf16Char (c : Char) : List Nat :=
  let n := c.toNat
  if n < 0x10000 then [n]
  else [0xD800 + (n - 0x10000) / 0x400, 0xDC00 + (n - 0x10000) % 0x400]

/-- UTF-16 encoding of a string literal of the source. -/
def utf16 (s : String) : JSString :=
  (s.toList.map utf16Char).flatten

/-- Builtin `haystack.startsWith(needle)` on code units. -/
def startsWith : JSString → JSString → Bool
  | _, [] => true
  | [], _ :: _ => false
  | h :: hs, n :: ns => h == n && startsWith hs ns

/-- Builtin `String.prototype.includes(needle)`: `needle` occurs as a contiguous run of code
units somewhere in `haystack`. -/
def includes : JSString → JSString → Bool
  | [], needle => startsWith [] needle
  | h :: hs, needle => startsWith (h :: hs) needle || includes hs needle

/-- ASCII lower-casing: what `toLowerCase` does on a string of ASCII code units. -/
def asciiLower (s : JSString) : JSString :=
  s.map (fun c => if 65 ≤ c ∧ c ≤ 90 then c + 32 else c)

/-- Code units removed by `String.prototype.trim`: ECMAScript WhiteSpace and
LineTerminator (all of them lie in the Basic Multilingual Plane). -/
def isWhiteSpace (c : Nat) : Bool :=
  c == 0x0009 || c == 0x000A || c == 0x000B || c == 0x000C || c == 0x000D ||
  c == 0x0020 || c == 0x00A0 || c == 0x1680 ||
  (0x2000 ≤ c && c ≤ 0x200A) ||
  c == 0x2028 || c == 0x2029 || c == 0x202F || c == 0x205F || c == 0x3000 ||
  c == 0xFEFF

/-- Builtin `String.prototype.trim`. -/
def trim (s : JSString) : JSString :=
  ((s.dropWhile isWhiteSpace).reverse.dropWhile isWhiteSpace).reverse

/-- Relative index resolution shared by `slice` and `splice`:
a negative `start` counts from the end, the result is clamped to `[0, len]`. -/
def relativeStart (len : Nat) (start : Int) : Nat :=
  if start < 0 then (max ((len : Int) + start) 0).toNat
  else (min start (len : Int)).toNat

/-- Builtin `Array.prototype.slice(start)` (no `end` argument): a copy from the resolved start
to the end of the array. -/
def slice {α : Type} (xs : List α) (start : Int) : List α :=
  xs.drop (relativeStart xs.length start)

/-- Builtin `Array.prototype.splice(start, deleteCount)` with no inserted items: the array
that remains after the removal. -/
def splice {α : Type} (xs : List α) (start : Int) (deleteCount : Int) : List α :=
  let actualStart := relativeStart xs.length start
  let actualDeleteCount :=
    (min (max deleteCount 0) ((xs.length : Int) - (actualStart : Int))).toNat
  xs.take actualStart ++ xs.drop (actualStart + actualDeleteCount)

/-! ## Data model -/

/-- An entry of `appState.conversationHistory`: `{ type, content, timestamp }`. -/
structure Message where
  type : JSString
  content : JSString
  timestamp : JSString
  deriving DecidableEq, Repr

/-- The object built by `processTask`. -/
structure Task where
  content : JSString
  response : JSString
  created_at : JSString
  completed : Bool
  deriving DecidableEq, Repr

/-- The object `appState.tasks`. -/
structure Tasks where
  reminders : List Task
  notes : List Task
  calendar : List Task
  deriving DecidableEq, Repr

/-- The keys of `appState.tasks` that the rendered delete buttons pass to `deleteTask`. -/
inductive TaskType where
  | reminders
  | notes
  | calendar
  deriving DecidableEq, Repr

/-- Property read `tasks[taskType]`. -/
def Tasks.get (t : Tasks) : TaskType → List Task
  | .reminders => t.reminders
  | .notes => t.notes
  | .calendar => t.calendar

/-- Replacement of the array under `tasks[taskType]` (the effect of an in-place update). -/
def Tasks.set (t : Tasks) (c : TaskType) (l : List Task) : Tasks :=
  match c with
  | .reminders => { t with reminders := l }
  | .notes => { t with notes := l }
  | .calendar => { t with calendar := l }

/-- The literal `{ reminders: [], notes: [], calendar: [] }`. -/
def Tasks.empty : Tasks := { reminders := [], notes := [], calendar := [] }

/-- The global `appState`. -/
structure AppState where
  currentMode : Option JSString
  conversationHistory : List Message
  tasks : Tasks
  deriving DecidableEq, Repr

/-- The initial value of `appState` (lines 6-14). -/
def appState : AppState :=
  { currentMode := none, conversationHistory := [], tasks := Tasks.empty }

/-- The object that `JSON.parse` returns for a stored snapshot.  A key may be missing,
which reads as `undefined`. -/
structure SavedData where
  conversationHistory : Option (List Message)
  tasks : Option Tasks
  deriving DecidableEq, Repr

/-- The text held under the key `claroGenAI_state`, classified by what `JSON.parse` does
with it: `unparseable raw` is a text `raw` on which `JSON.parse` throws a `SyntaxError`;
`parsed data` is a text that parses to the snapshot object `data`.  Texts that parse to
anything else than such an object are outside this model. -/
inductive Stored where
  | unparseable (raw : JSString)
  | parsed (data : SavedData)
  deriving DecidableEq, Repr

/-- Truthiness of the stored text in `if (saved)`: only the empty string is falsy, and
the empty string is not valid JSON. -/
def Stored.truthy : Stored → Bool
  | .unparseable raw => !raw.isEmpty
  | .parsed _ => true

/-- Builtin `JSON.parse(saved)`: the parsed object, or `none` when it throws. -/
def JSON_parse : Stored → Option SavedData
  | .unparseable _ => none
  | .parsed data => some data

/-- The body `{ message, action }` of a request sent to `/chat`. -/
structure Request where
  message : JSString
  action : Option JSString
  deriving DecidableEq, Repr

/-- Everything the functions below read or write: the global `appState`, the
`localStorage` item, and the parts of the page they touch. -/
structure World where
  /-- The global `appState`. -/
  appState : AppState
  /-- Builtin `localStorage.getItem('claroGenAI_state')`; `none` is `null`. -/
  storage : Option Stored
  /-- Whether `localStorage.setItem` throws (quota exceeded, store unavailable). -/
  storageFull : Bool
  /-- Children of `elements.chatHistory`: class name suffix and text of each message div. -/
  chatHistory : List (JSString × JSString)
  /-- Whether the chat page is shown instead of the welcome page. -/
  chatView : Bool
  /-- Whether the loading overlay is active. -/
  loading : Bool
  /-- The task lists as drawn by the last `updateTasksUI`. -/
  taskPanel : Tasks
  /-- The `fetch` calls issued so far, oldest first. -/
  requests : List Request
  deriving DecidableEq, Repr

/-- The page right after the script has been evaluated, with `stored` in `localStorage`. -/
def World.startup (stored : Option Stored) (full : Bool) : World :=
  { appState := ClaroAsistente.appState, storage := stored, storageFull := full, chatHistory := [],
    chatView := false, loading := false, taskPanel := Tasks.empty, requests := [] }

/-! ## Chat functions -/

/-- Function `showChatView()`: hide the welcome page, show the chat page. -/
def showChatView (w : World) : World :=
  { w with chatView := true }

/-- Function `showLoading()`. -/
def showLoading (w : World) : World :=
  { w with loading := true }

/-- Function `hideLoading()`. -/
def hideLoading (w : World) : World :=
  { w with loading := false }

/-- Function `addMessage(type, content)` (lines 222-236): append a message div to the chat and
push `{ type, content, timestamp }` onto `appState.conversationHistory`.  `now` is the
value of `new Date().toISOString()` at the call. -/
def addMessage (type content : JSString) (now : JSString) (w : World) : World :=
  { w with
    chatHistory := w.chatHistory ++ [(type, content)]
    appState := { w.appState with
      conversationHistory :=
        w.appState.conversationHistory ++
          [{ type := type, content := content, timestamp := now }] } }

/-- What `fetch` and `response.json()` deliver to `callAPI`. -/
inductive FetchOutcome where
  /-- The promise returned by `fetch` rejects (network failure). -/
  | networkFailure
  /-- A response with the given status arrived and `response.json()` rejects. -/
  | badBody (status : Nat)
  /-- A response with the given status arrived; its JSON body has the fields
  `success`, `response` and (possibly missing) `error`. -/
  | body (status : Nat) (success : Bool) (response : JSString) (error : Option JSString)
  deriving DecidableEq, Repr

/-- The status carried by an outcome that has one. -/
def FetchOutcome.status? : FetchOutcome → Option Nat
  | .networkFailure => none
  | .badBody status => some status
  | .body status _ _ _ => some status

/-- Property `response.ok`: the status is in the range 200-299. -/
def responseOk (status : Nat) : Bool :=
  200 ≤ status && status ≤ 299

/-- The errors `callAPI` rethrows. -/
inductive ApiError where
  | network
  | http (status : Nat)
  | invalidJson
  | application (message : JSString)
  deriving DecidableEq, Repr

/-- Function `callAPI(message)` once `fetch` has settled (lines 239-267): the reply text, or the
error that is logged and rethrown. -/
def callAPI (outcome : FetchOutcome) : Except ApiError JSString :=
  match outcome with
  | .networkFailure => .error .network
  | .badBody status =>
      if !responseOk status then .error (.http status) else .error .invalidJson
  | .body status success response error =>
      if !responseOk status then .error (.http status)
      else if success then .ok response
      else
        match error with
        | some e => if e.isEmpty then .error (.application (utf16 "Error desconocido"))
                    else .error (.application e)
        | none => .error (.application (utf16 "Error desconocido"))

/-! ## Task management -/

/-- Function `isTaskMessage(message)` (lines 270-277). -/
def isTaskMessage (toLowerCase : JSString → JSString) (message : JSString) : Bool :=
  includes message (utf16 "✅") ||
  includes message (utf16 "📝") ||
  includes message (utf16 "📅") ||
  includes (toLowerCase message) (utf16 "recordatorio") ||
  includes (toLowerCase message) (utf16 "nota") ||
  includes (toLowerCase message) (utf16 "evento")

/-- Function `updateTasksUI()`: redraw the three task sections from `appState.tasks`. -/
def updateTasksUI (w : World) : World :=
  { w with taskPanel := w.appState.tasks }

/-- The object `JSON.stringify` is applied to in `saveToLocalStorage`. -/
def snapshot (s : AppState) : SavedData :=
  { conversationHistory := some (slice s.conversationHistory (-50))
    tasks := some s.tasks }

/-- Function `saveToLocalStorage()` (lines 358-367).  When `setItem` throws, the `catch` logs the
error and nothing changes. -/
def saveToLocalStorage (w : World) : World :=
  if w.storageFull then w
  else { w with storage := some (.parsed (snapshot w.appState)) }

/-- The `task` object of `processTask`; `timestamp` is
`new Date().toLocaleString('es-ES')`. -/
def mkTask (userMessage botResponse timestamp : JSString) : Task :=
  { content := userMessage, response := botResponse, created_at := timestamp,
    completed := false }

/-- Function `processTask(userMessage, botResponse)` (lines 279-300). -/
def processTask (toLowerCase : JSString → JSString) (userMessage botResponse : JSString)
    (timestamp : JSString) (w : World) : World :=
  let task := mkTask userMessage botResponse timestamp
  let tasks := w.appState.tasks
  let tasks :=
    if includes botResponse (utf16 "✅") ||
        includes (toLowerCase userMessage) (utf16 "recordatorio") then
      { tasks with reminders := tasks.reminders ++ [task] }
    else if includes botResponse (utf16 "📝") ||
        includes (toLowerCase userMessage) (utf16 "nota") then
      { tasks with notes := tasks.notes ++ [task] }
    else if includes botResponse (utf16 "📅") ||
        includes (toLowerCase userMessage) (utf16 "evento") then
      { tasks with calendar := tasks.calendar ++ [task] }
    else tasks
  saveToLocalStorage (updateTasksUI { w with appState := { w.appState with tasks := tasks } })

/-- Function `deleteTask(taskType, index)` (lines 337-343); `confirmed` is the answer to the
`confirm` dialog. -/
def deleteTask (taskType : TaskType) (index : Int) (confirmed : Bool) (w : World) : World :=
  if confirmed then
    let tasks := w.appState.tasks.set taskType (splice (w.appState.tasks.get taskType) index 1)
    saveToLocalStorage (updateTasksUI { w with appState := { w.appState with tasks := tasks } })
  else w

/-! ## Sending a message -/

/-- The fixed text shown when the backend call fails (line 206). -/
def errorText : JSString :=
  utf16 "❌ Lo siento, hubo un error al procesar tu mensaje. Por favor, intenta de nuevo."

/-- The guard `!text || !text.trim()` of `sendMessage`. -/
def rejectsText (text : JSString) : Bool :=
  text.isEmpty || (trim text).isEmpty

/-- The part of `sendMessage` that precedes the call of `callAPI` (lines 185-192):
this is the state in which the request is issued. -/
def sendMessage_beforeCall (text : JSString) (now : JSString) (w : World) : World :=
  showLoading (addMessage (utf16 "user") text now (showChatView w))

/-- Function `callAPI(text)` up to its first `await`: the `fetch` is issued with the current
mode as `action`. -/
def callAPI_issue (message : JSString) (w : World) : World :=
  { w with requests := w.requests ++ [{ message := message, action := w.appState.currentMode }] }

/-- Function `sendMessage(text)` up to its return (lines 182-215): the synchronous part.  The
promise handlers run later, see `sendMessage_settled`. -/
def sendMessage (text : JSString) (now : JSString) (w : World) : World :=
  if rejectsText text then w
  else callAPI_issue text (sendMessage_beforeCall text now w)

/-- The `then` handler of `sendMessage` (lines 196-203). -/
def sendMessage_then (toLowerCase : JSString → JSString) (text response : JSString)
    (now timestamp : JSString) (w : World) : World :=
  let w := addMessage (utf16 "bot") response now w
  if isTaskMessage toLowerCase response then processTask toLowerCase text response timestamp w
  else w

/-- The `catch` handler of `sendMessage` (lines 204-207). -/
def sendMessage_catch (now : JSString) (w : World) : World :=
  addMessage (utf16 "bot") errorText now w

/-- The `finally` handler of `sendMessage` (lines 208-211). -/
def sendMessage_finally (w : World) : World :=
  saveToLocalStorage (hideLoading w)

/-- The promise chain of `sendMessage(text)` once `fetch` has settled with `outcome`,
run on the state `w` found at that moment: `then` or `catch`, followed by `finally`.
`now` is the ISO time read by `addMessage`, `timestamp` the locale time read by
`processTask`. -/
def sendMessage_settled (toLowerCase : JSString → JSString) (text : JSString)
    (outcome : FetchOutcome) (now timestamp : JSString) (w : World) : World :=
  match callAPI outcome with
  | .ok response => sendMessage_finally (sendMessage_then toLowerCase text response now timestamp w)
  | .error _ => sendMessage_finally (sendMessage_catch now w)

/-! ## Local storage and resets -/

/-- The `forEach` of `loadFromLocalStorage` (lines 380-382).  `forEach` fixes the number
of visited indices before the first callback and reads element `k` from the array when
it gets there; the array it walks is `appState.conversationHistory` itself, the one
`addMessage` pushes onto.  `remaining` indices are left, `k` is the next one, and
`stamps k` is the time read by the `k`-th callback. -/
def replayHistory (stamps : Nat → JSString) : Nat → Nat → World → World
  | 0, _, w => w
  | remaining + 1, k, w =>
      match w.appState.conversationHistory[k]? with
      | some msg => replayHistory stamps remaining (k + 1) (addMessage msg.type msg.content (stamps k) w)
      | none => replayHistory stamps remaining (k + 1) w

/-- Function `loadFromLocalStorage()` (lines 369-390).  A `SyntaxError` of `JSON.parse` is thrown
before anything is assigned; the `catch` logs it. -/
def loadFromLocalStorage (stamps : Nat → JSString) (w : World) : World :=
  match w.storage with
  | none => w
  | some saved =>
      if saved.truthy then
        match JSON_parse saved with
        | none => w
        | some data =>
            let w := { w with appState := { w.appState with
              conversationHistory := data.conversationHistory.getD []
              tasks := data.tasks.getD Tasks.empty } }
            let w :=
              if w.appState.conversationHistory.length > 0 then
                replayHistory stamps w.appState.conversationHistory.length 0 (showChatView w)
              else w
            updateTasksUI w
      else w

/-- Function `clearChat()` (lines 393-401). -/
def clearChat (confirmed : Bool) (w : World) : World :=
  if confirmed then
    saveToLocalStorage { w with
      appState := { w.appState with conversationHistory := [] }
      chatHistory := []
      chatView := false }
  else w

/-- Function `clearAllTasks()` (lines 403-409). -/
def clearAllTasks (confirmed : Bool) (w : World) : World :=
  if confirmed then
    saveToLocalStorage (updateTasksUI { w with appState := { w.appState with tasks := Tasks.empty } })
  else w

/-- The stored item agrees with memory: it is the snapshot of the current `appState`. -/
def Persisted (w : World) : Prop :=
  w.storage = some (.parsed (snapshot w.appState))

instance (w : World) : Decidable (Persisted w) := by
  unfold Persisted; infer_instance

/-- Copies of `msgs` as the replay of `loadFromLocalStorage` pushes them: same type and
content, the timestamp read at the callback (`stamps k` for the message at index `k`). -/
def restamp (stamps : Nat → JSString) : Nat → List Message → List Message
  | _, [] => []
  | k, m :: ms => { m with timestamp := stamps k } :: restamp stamps (k + 1) ms

/-- The failures of the backend call named by the specification: a transport failure,
a status outside 200-299, or a body with `success = false` (whatever its `error`). -/
def backendFails : FetchOutcome → Bool
  | .networkFailure => true
  | .badBody status => !responseOk status
  | .body status success _ _ => !responseOk status || !success

/-- Save the state, reload the page, and load: `loadFromLocalStorage` run on a fresh
page whose store holds what `saveToLocalStorage` wrote for `w`. -/
def saveThenLoad (stamps : Nat → JSString) (w : World) : World :=
  loadFromLocalStorage stamps (World.startup (saveToLocalStorage w).storage w.storageFull)

/-! ## Concrete inputs -/

/-- A user message with content `[c]` written at time `[c]`. -/
def sampleMessage (c : Nat) : Message :=
  { type := utf16 "user", content := [c], timestamp := [c] }

/-- A conversation log of `n` distinct messages, oldest first. -/
def sampleLog (n : Nat) : List Message :=
  (List.range n).map sampleMessage

/-- A task whose content is `[c]`. -/
def sampleTask (c : Nat) : Task :=
  mkTask [c] (utf16 "✅ ok") (utf16 "1/1/2025")

/-- A page with the given log and tasks, an empty store that accepts writes. -/
def sampleWorld (log : List Message) (tasks : Tasks) : World :=
  { World.startup none false with
    appState := { currentMode := none, conversationHistory := log, tasks := tasks } }

/-- A page showing one message whose store holds the snapshot of that state and rejects
further writes. -/
def fullStoreWorld : World :=
  { sampleWorld [sampleMessage 104] Tasks.empty with
    storage := some (.parsed (snapshot (sampleWorld [sampleMessage 104] Tasks.empty).appState))
    storageFull := true }

/-! ## Helper lemmas -/

@[simp] theorem saveToLocalStorage_appState (w : World) :
    (saveToLocalStorage w).appState = w.appState := by
  unfold saveToLocalStorage; split <;> rfl

@[simp] theorem saveToLocalStorage_loading (w : World) :
    (saveToLocalStorage w).loading = w.loading := by
  unfold saveToLocalStorage; split <;> rfl

@[simp] theorem saveToLocalStorage_requests (w : World) :
    (saveToLocalStorage w).requests = w.requests := by
  unfold saveToLocalStorage; split <;> rfl

theorem saveToLocalStorage_persisted (w : World) (h : w.storageFull = false) :
    Persisted (saveToLocalStorage w) := by
  simp [Persisted, saveToLocalStorage, h]

theorem saveToLocalStorage_full (w : World) (h : w.storageFull = true) :
    saveToLocalStorage w = w := by
  simp [saveToLocalStorage, h]

@[simp] theorem saveToLocalStorage_storageFull (w : World) :
    (saveToLocalStorage w).storageFull = w.storageFull := by
  unfold saveToLocalStorage; split <;> rfl

theorem relativeStart_neg50 (n : Nat) : relativeStart n (-50) = n - min 50 n := by
  unfold relativeStart
  simp only [show ((-50 : Int) < 0) from by decide, if_true]
  omega

theorem relativeStart_nonneg (n : Nat) (i : Int) (h0 : 0 ≤ i) (h1 : i < n) :
    relativeStart n i = i.toNat := by
  unfold relativeStart
  rw [if_neg (by omega)]
  congr 1
  omega

theorem splice_one {α : Type} (xs : List α) (i : Int) (h0 : 0 ≤ i) (h1 : i < xs.length) :
    splice xs i 1 = xs.eraseIdx i.toNat := by
  unfold splice
  rw [relativeStart_nonneg xs.length i h0 h1]
  have hd : (min (max (1 : Int) 0) ((xs.length : Int) - ((i.toNat : Nat) : Int))).toNat = 1 := by
    omega
  simp only [hd]
  rw [List.eraseIdx_eq_take_drop_succ]

theorem trim_eq_nil_iff (s : JSString) : trim s = [] ↔ ∀ c ∈ s, isWhiteSpace c = true := by
  unfold trim
  rw [List.reverse_eq_nil_iff, List.dropWhile_eq_nil_iff]
  constructor
  · intro h
    by_cases hs : s.dropWhile isWhiteSpace = []
    · exact List.dropWhile_eq_nil_iff.mp hs
    · exfalso
      have hhead := List.head_dropWhile_not isWhiteSpace s hs
      have hmem : (s.dropWhile isWhiteSpace).head hs ∈ (s.dropWhile isWhiteSpace).reverse :=
        List.mem_reverse.mpr (List.head_mem hs)
      have := h _ hmem
      simp [this] at hhead
  · intro h c hc
    have hc2 : c ∈ s.dropWhile isWhiteSpace := List.mem_reverse.mp hc
    exact h c ((List.dropWhile_sublist _).subset hc2)

theorem rejectsText_iff (text : JSString) :
    rejectsText text = true ↔ ∀ c ∈ text, isWhiteSpace c = true := by
  unfold rejectsText
  rw [Bool.or_eq_true, List.isEmpty_iff, List.isEmpty_iff, trim_eq_nil_iff]
  constructor
  · rintro (h | h)
    · subst h; simp
    · exact h
  · intro h; exact Or.inr h

theorem startsWith_iff_prefix (h n : JSString) : startsWith h n = true ↔ n <+: h := by
  induction n generalizing h with
  | nil => simp [startsWith]
  | cons a ns ih =>
    cases h with
    | nil => simp [startsWith]
    | cons b hs =>
      simp only [startsWith, Bool.and_eq_true, beq_iff_eq, ih, List.cons_prefix_cons]
      constructor
      · rintro ⟨h1, h2⟩; exact ⟨h1.symm, h2⟩
      · rintro ⟨h1, h2⟩; exact ⟨h1.symm, h2⟩

theorem includes_iff_infix (h n : JSString) : includes h n = true ↔ n <:+: h := by
  induction h with
  | nil =>
    simp only [includes, startsWith_iff_prefix, List.prefix_nil, List.infix_nil]
  | cons b hs ih =>
    simp only [includes, Bool.or_eq_true, startsWith_iff_prefix, ih, List.infix_cons_iff]

/-! ## Task routing -/

/-- C1. `processTask(u, b)` routes by the ordered first-match rule: the new task is
appended to `reminders` if `b` contains the check mark or lower-cased `u` contains
"recordatorio"; otherwise to `notes` if `b` contains the memo glyph or lower-cased `u`
contains "nota"; otherwise to `calendar` if `b` contains the calendar glyph or lower-cased
`u` contains "evento"; otherwise no collection changes.  In every case either no
collection changes, or exactly one collection gets the new task appended and the other
two stay as they were. -/
theorem processTask_routing (toLowerCase : JSString → JSString) (u b ts : JSString)
    (w : World) :
    ((includes b (utf16 "✅") || includes (toLowerCase u) (utf16 "recordatorio")) = true →
      (processTask toLowerCase u b ts w).appState.tasks =
        { w.appState.tasks with
          reminders := w.appState.tasks.reminders ++ [mkTask u b ts] }) ∧
    ((includes b (utf16 "✅") || includes (toLowerCase u) (utf16 "recordatorio")) = false →
      (includes b (utf16 "📝") || includes (toLowerCase u) (utf16 "nota")) = true →
      (processTask toLowerCase u b ts w).appState.tasks =
        { w.appState.tasks with notes := w.appState.tasks.notes ++ [mkTask u b ts] }) ∧
    ((includes b (utf16 "✅") || includes (toLowerCase u) (utf16 "recordatorio")) = false →
      (includes b (utf16 "📝") || includes (toLowerCase u) (utf16 "nota")) = false →
      (includes b (utf16 "📅") || includes (toLowerCase u) (utf16 "evento")) = true →
      (processTask toLowerCase u b ts w).appState.tasks =
        { w.appState.tasks with
          calendar := w.appState.tasks.calendar ++ [mkTask u b ts] }) ∧
    ((includes b (utf16 "✅") || includes (toLowerCase u) (utf16 "recordatorio")) = false →
      (includes b (utf16 "📝") || includes (toLowerCase u) (utf16 "nota")) = false →
      (includes b (utf16 "📅") || includes (toLowerCase u) (utf16 "evento")) = false →
      (processTask toLowerCase u b ts w).appState.tasks = w.appState.tasks) ∧
    ((processTask toLowerCase u b ts w).appState.tasks = w.appState.tasks ∨
      ∃ c : TaskType,
        (processTask toLowerCase u b ts w).appState.tasks.get c =
          w.appState.tasks.get c ++ [mkTask u b ts] ∧
        ((processTask toLowerCase u b ts w).appState.tasks.get c).length =
          (w.appState.tasks.get c).length + 1 ∧
        ∀ d : TaskType, d ≠ c →
          (processTask toLowerCase u b ts w).appState.tasks.get d = w.appState.tasks.get d) := by
  refine ⟨?_, ?_, ?_, ?_, ?_⟩
  · intro h1
    simp [processTask, updateTasksUI, h1]
  · intro h1 h2
    simp [processTask, updateTasksUI, h1, h2]
  · intro h1 h2 h3
    simp [processTask, updateTasksUI, h1, h2, h3]
  · intro h1 h2 h3
    simp [processTask, updateTasksUI, h1, h2, h3]
  · cases h1 : (includes b (utf16 "✅") || includes (toLowerCase u) (utf16 "recordatorio"))
    · cases h2 : (includes b (utf16 "📝") || includes (toLowerCase u) (utf16 "nota"))
      · cases h3 : (includes b (utf16 "📅") || includes (toLowerCase u) (utf16 "evento"))
        · left
          simp [processTask, updateTasksUI, h1, h2, h3]
        · right
          refine ⟨.calendar, ?_, ?_, ?_⟩
          · simp [processTask, updateTasksUI, h1, h2, h3, Tasks.get]
          · simp [processTask, updateTasksUI, h1, h2, h3, Tasks.get]
          · intro d hd
            cases d <;> simp_all [processTask, updateTasksUI, Tasks.get]
      · right
        refine ⟨.notes, ?_, ?_, ?_⟩
        · simp [processTask, updateTasksUI, h1, h2, Tasks.get]
        · simp [processTask, updateTasksUI, h1, h2, Tasks.get]
        · intro d hd
          cases d <;> simp_all [processTask, updateTasksUI, Tasks.get]
    · right
      refine ⟨.reminders, ?_, ?_, ?_⟩
      · simp [processTask, updateTasksUI, h1, Tasks.get]
      · simp [processTask, updateTasksUI, h1, Tasks.get]
      · intro d hd
        cases d <;> simp_all [processTask, updateTasksUI, Tasks.get]

/-- C1, at concrete inputs: a reply with the memo glyph to a message that mentions a
"Recordatorio" goes to `reminders` (first match wins) and `notes` stays empty. -/
theorem processTask_routing_witness :
    (processTask asciiLower (utf16 "un Recordatorio") (utf16 "ok 📝") (utf16 "1/1/2025")
        (World.startup none false)).appState.tasks =
      { reminders := [mkTask (utf16 "un Recordatorio") (utf16 "ok 📝") (utf16 "1/1/2025")],
        notes := [], calendar := [] } :=
  (processTask_routing asciiLower (utf16 "un Recordatorio") (utf16 "ok 📝") (utf16 "1/1/2025")
    (World.startup none false)).1 (by decide)

/-! ## Persistence snapshot -/

/-- C3. When the store accepts the write, the `conversationHistory` written by
`saveToLocalStorage` for a log of length `n` is the last `min 50 n` messages of the log
in their original order: it is a suffix of the log of length `min 50 n`, its `i`-th
entry is entry `n - min 50 n + i` of the log, for `n > 50` it is the log without its
first `n - 50` entries (exactly 50 messages), and for `n ≤ 50` it is the whole log. -/
theorem saveToLocalStorage_history (w : World) (h : w.storageFull = false) :
    ∃ saved : List Message,
      (saveToLocalStorage w).storage =
        some (.parsed { conversationHistory := some saved, tasks := some w.appState.tasks }) ∧
      saved = w.appState.conversationHistory.drop
        (w.appState.conversationHistory.length - min 50 w.appState.conversationHistory.length) ∧
      saved <:+ w.appState.conversationHistory ∧
      saved.length = min 50 w.appState.conversationHistory.length ∧
      (∀ i, i < min 50 w.appState.conversationHistory.length →
        saved[i]? = w.appState.conversationHistory[
          w.appState.conversationHistory.length -
            min 50 w.appState.conversationHistory.length + i]?) ∧
      (50 < w.appState.conversationHistory.length →
        saved.length = 50 ∧
        saved = w.appState.conversationHistory.drop
          (w.appState.conversationHistory.length - 50)) ∧
      (w.appState.conversationHistory.length ≤ 50 →
        saved = w.appState.conversationHistory) := by
  refine ⟨_, ?_, rfl, List.drop_suffix _ _, ?_, ?_, ?_, ?_⟩
  · simp [saveToLocalStorage, h, snapshot, slice, relativeStart_neg50]
  · rw [List.length_drop]; omega
  · intro i _
    rw [List.getElem?_drop]
  · intro hn
    refine ⟨by rw [List.length_drop]; omega, ?_⟩
    rw [Nat.min_eq_left (Nat.le_of_lt hn)]
  · intro hn
    rw [Nat.min_eq_right hn, Nat.sub_self, List.drop_zero]

/-- C3, at a log of 52 messages: the stored history is messages 2 to 51. -/
theorem saveToLocalStorage_history_witness :
    (sampleWorld (sampleLog 52) Tasks.empty).storageFull = false ∧
    (saveToLocalStorage (sampleWorld (sampleLog 52) Tasks.empty)).storage =
      some (.parsed { conversationHistory := some ((sampleLog 52).drop 2),
                      tasks := some Tasks.empty }) := by
  refine ⟨rfl, ?_⟩
  obtain ⟨saved, hs, hd, -⟩ :=
    saveToLocalStorage_history (sampleWorld (sampleLog 52) Tasks.empty) rfl
  rw [hs, hd]
  rfl

/-! ## Deleting a task -/

/-- C4. For every category `c` and index `0 ≤ i < length(tasks[c])`, a confirmed
`deleteTask(c, i)` leaves `tasks[c]` equal to the original list with the element at
position `i` removed: the length drops by one, entries before `i` keep their index,
entries after `i` move down by one; the other two categories and the conversation
history are unchanged. -/
theorem deleteTask_removes (c : TaskType) (i : Int) (w : World)
    (h0 : 0 ≤ i) (h1 : i < (w.appState.tasks.get c).length) :
    (deleteTask c i true w).appState.tasks.get c = (w.appState.tasks.get c).eraseIdx i.toNat ∧
    ((deleteTask c i true w).appState.tasks.get c).length + 1 =
      (w.appState.tasks.get c).length ∧
    (∀ j, j < i.toNat →
      ((deleteTask c i true w).appState.tasks.get c)[j]? = (w.appState.tasks.get c)[j]?) ∧
    (∀ j, i.toNat ≤ j →
      ((deleteTask c i true w).appState.tasks.get c)[j]? = (w.appState.tasks.get c)[j + 1]?) ∧
    (∀ d : TaskType, d ≠ c →
      (deleteTask c i true w).appState.tasks.get d = w.appState.tasks.get d) ∧
    (deleteTask c i true w).appState.conversationHistory = w.appState.conversationHistory := by
  have hi : i.toNat < (w.appState.tasks.get c).length := by omega
  have key : (deleteTask c i true w).appState.tasks.get c =
      (w.appState.tasks.get c).eraseIdx i.toNat := by
    rw [← splice_one _ i h0 h1]
    cases c <;> simp [deleteTask, updateTasksUI, Tasks.get, Tasks.set]
  refine ⟨key, ?_, ?_, ?_, ?_, ?_⟩
  · rw [key, List.length_eraseIdx, if_pos hi]; omega
  · intro j hj
    rw [key, List.getElem?_eraseIdx, if_pos hj]
  · intro j hj
    rw [key, List.getElem?_eraseIdx, if_neg (by omega)]
  · intro d hd
    cases c <;> cases d <;> simp_all [deleteTask, updateTasksUI, Tasks.get, Tasks.set]
  · simp [deleteTask, updateTasksUI]

/-- C4, at two reminders and one note: deleting reminder 0 leaves the former reminder 1
and the note. -/
theorem deleteTask_removes_witness :
    ((0 : Int) ≤ 0 ∧ (0 : Int) < ([sampleTask 1, sampleTask 2] : List Task).length) ∧
    (deleteTask .reminders 0 true
        (sampleWorld [] { reminders := [sampleTask 1, sampleTask 2], notes := [sampleTask 3],
                          calendar := [] })).appState.tasks.get .reminders = [sampleTask 2] ∧
    (deleteTask .reminders 0 true
        (sampleWorld [] { reminders := [sampleTask 1, sampleTask 2], notes := [sampleTask 3],
                          calendar := [] })).appState.tasks.get .notes = [sampleTask 3] :=
  ⟨⟨by decide, by decide⟩,
   (deleteTask_removes .reminders 0
      (sampleWorld [] { reminders := [sampleTask 1, sampleTask 2], notes := [sampleTask 3],
                        calendar := [] }) (by decide) (by decide)).1.trans rfl,
   ((deleteTask_removes .reminders 0
      (sampleWorld [] { reminders := [sampleTask 1, sampleTask 2], notes := [sampleTask 3],
                        calendar := [] }) (by decide) (by decide)).2.2.2.2.1 .notes
        (by decide)).trans rfl⟩

/-! ## Loading -/

/-- C5. At startup, when the stored value is absent or is a text that `JSON.parse`
rejects, `loadFromLocalStorage` returns normally and changes nothing: `appState` is
the default `{conversationHistory: [], tasks: {reminders: [], notes: [], calendar: []}}`. -/
theorem loadFromLocalStorage_unreadable (stamps : Nat → JSString) (stored : Option Stored)
    (full : Bool)
    (h : stored = none ∨ ∃ s, stored = some s ∧ JSON_parse s = none) :
    loadFromLocalStorage stamps (World.startup stored full) = World.startup stored full ∧
    (loadFromLocalStorage stamps (World.startup stored full)).appState =
      { currentMode := none, conversationHistory := [],
        tasks := { reminders := [], notes := [], calendar := [] } } := by
  have key : loadFromLocalStorage stamps (World.startup stored full) =
      World.startup stored full := by
    rcases h with h | ⟨s, hs, hp⟩
    · subst h; rfl
    · subst hs
      simp only [loadFromLocalStorage, World.startup, hp]
      split <;> rfl
  exact ⟨key, by rw [key]; rfl⟩

/-- C5, at the stored text `{not json`. -/
theorem loadFromLocalStorage_unreadable_witness :
    JSON_parse (.unparseable (utf16 "\x7bnot json")) = none ∧
    (loadFromLocalStorage (fun _ => []) (World.startup
        (some (.unparseable (utf16 "\x7bnot json"))) false)).appState =
      { currentMode := none, conversationHistory := [],
        tasks := { reminders := [], notes := [], calendar := [] } } :=
  ⟨rfl, (loadFromLocalStorage_unreadable (fun _ => [])
    (some (.unparseable (utf16 "\x7bnot json"))) false (Or.inr ⟨_, rfl, rfl⟩)).2⟩

theorem length_restamp (stamps : Nat → JSString) (k : Nat) (l : List Message) :
    (restamp stamps k l).length = l.length := by
  induction l generalizing k with
  | nil => rfl
  | cons m ms ih => simp [restamp, ih]

theorem getElem?_restamp (stamps : Nat → JSString) (k : Nat) (l : List Message) (i : Nat) :
    (restamp stamps k l)[i]? =
      (l[i]?).map (fun m => { m with timestamp := stamps (k + i) }) := by
  induction l generalizing k i with
  | nil => simp [restamp]
  | cons m ms ih =>
    cases i with
    | zero => simp [restamp]
    | succ i =>
      simp only [restamp, List.getElem?_cons_succ, ih]
      congr 1
      funext m
      congr 2
      omega

theorem replayHistory_history (stamps : Nat → JSString) (r k : Nat) (w : World)
    (hk : k + r ≤ w.appState.conversationHistory.length) :
    (replayHistory stamps r k w).appState.conversationHistory =
      w.appState.conversationHistory ++
        restamp stamps k ((w.appState.conversationHistory.drop k).take r) := by
  induction r generalizing k w with
  | zero => simp [replayHistory, restamp]
  | succ r ih =>
    have hlt : k < w.appState.conversationHistory.length := by omega
    have hget : w.appState.conversationHistory[k]? =
        some (w.appState.conversationHistory[k]) := List.getElem?_eq_getElem hlt
    simp only [replayHistory, hget]
    rw [ih]
    · have hdrop : w.appState.conversationHistory.drop k =
          w.appState.conversationHistory[k] :: w.appState.conversationHistory.drop (k + 1) :=
        List.drop_eq_getElem_cons hlt
      have hlen : r ≤ (w.appState.conversationHistory.drop (k + 1)).length := by
        rw [List.length_drop]; omega
      simp only [addMessage, hdrop, List.take_succ_cons, restamp, List.append_assoc,
        List.singleton_append]
      rw [List.drop_append_of_le_length (by omega), List.take_append_of_le_length hlen]
    · simp only [addMessage, List.length_append, List.length_singleton]
      omega

theorem replayHistory_rest (stamps : Nat → JSString) (r k : Nat) (w : World) :
    (replayHistory stamps r k w).appState.tasks = w.appState.tasks ∧
    (replayHistory stamps r k w).storage = w.storage := by
  induction r generalizing k w with
  | zero => simp [replayHistory]
  | succ r ih =>
    simp only [replayHistory]
    split
    · rw [(ih _ _).1, (ih _ _).2]; simp [addMessage]
    · exact ih _ _

theorem loadFromLocalStorage_parsed (stamps : Nat → JSString) (w : World)
    (msgs : List Message) (tasks : Tasks)
    (h : w.storage = some (.parsed { conversationHistory := some msgs, tasks := some tasks })) :
    (loadFromLocalStorage stamps w).appState.conversationHistory =
      msgs ++ restamp stamps 0 msgs ∧
    (loadFromLocalStorage stamps w).appState.tasks = tasks := by
  cases msgs with
  | nil => simp [loadFromLocalStorage, h, Stored.truthy, JSON_parse, updateTasksUI, restamp]
  | cons m ms =>
    simp only [loadFromLocalStorage, h, Stored.truthy, JSON_parse, updateTasksUI,
      Option.getD_some, List.length_cons, gt_iff_lt, Nat.zero_lt_succ, if_true]
    constructor
    · rw [replayHistory_history]
      · simp [showChatView]
      · simp [showChatView]
    · rw [(replayHistory_rest _ _ _ _).1]
      simp [showChatView]

theorem restamp_ne_nil (stamps : Nat → JSString) (k : Nat) (l : List Message) (h : l ≠ []) :
    restamp stamps k l ≠ [] := by
  cases l with
  | nil => exact absurd rfl h
  | cons m ms => simp [restamp]

/-- Saving and loading into a fresh page, for any state whose store accepts the write and
whose history has at most 50 messages: the loaded history is the saved one followed by
its replayed copies, so it differs from the saved one as soon as that is non-empty. -/
theorem saveThenLoad_history (stamps : Nat → JSString) (w : World)
    (haccepts : w.storageFull = false) (hlen : w.appState.conversationHistory.length ≤ 50) :
    (saveThenLoad stamps w).appState.conversationHistory =
      w.appState.conversationHistory ++ restamp stamps 0 w.appState.conversationHistory ∧
    (saveThenLoad stamps w).appState.tasks = w.appState.tasks ∧
    (w.appState.conversationHistory ≠ [] →
      (saveThenLoad stamps w).appState.conversationHistory ≠ w.appState.conversationHistory) := by
  have hstore : (World.startup (saveToLocalStorage w).storage w.storageFull).storage =
      some (.parsed { conversationHistory := some w.appState.conversationHistory,
                      tasks := some w.appState.tasks }) := by
    have h0 : w.appState.conversationHistory.length - min 50 w.appState.conversationHistory.length
        = 0 := by omega
    simp [World.startup, saveToLocalStorage, haccepts, snapshot, slice, relativeStart_neg50, h0]
  have key := loadFromLocalStorage_parsed stamps _ _ _ hstore
  refine ⟨key.1, key.2, ?_⟩
  intro hne heq
  have h1 : (saveThenLoad stamps w).appState.conversationHistory =
      w.appState.conversationHistory ++ restamp stamps 0 w.appState.conversationHistory := key.1
  rw [heq] at h1
  exact restamp_ne_nil stamps 0 _ hne (List.self_eq_append_right.mp h1)

/-- C10. For every persisted snapshot with `n` messages and a task registry, after
`loadFromLocalStorage` the in-memory history has length `2n`: its first `n` entries are
the persisted messages, entry `n + i` is a copy of entry `i` with the same type and
content and the timestamp read during the replay, and the tasks are the persisted ones. -/
theorem loadFromLocalStorage_replays (stamps : Nat → JSString) (w : World)
    (msgs : List Message) (tasks : Tasks)
    (h : w.storage = some (.parsed { conversationHistory := some msgs, tasks := some tasks })) :
    (loadFromLocalStorage stamps w).appState.conversationHistory =
      msgs ++ restamp stamps 0 msgs ∧
    (loadFromLocalStorage stamps w).appState.conversationHistory.length = 2 * msgs.length ∧
    (loadFromLocalStorage stamps w).appState.conversationHistory.take msgs.length = msgs ∧
    (∀ i (hi : i < msgs.length),
      (loadFromLocalStorage stamps w).appState.conversationHistory[msgs.length + i]? =
        some { type := (msgs[i]).type, content := (msgs[i]).content,
               timestamp := stamps i }) ∧
    (loadFromLocalStorage stamps w).appState.tasks = tasks := by
  have key := (loadFromLocalStorage_parsed stamps w msgs tasks h).1
  refine ⟨key, ?_, ?_, ?_, (loadFromLocalStorage_parsed stamps w msgs tasks h).2⟩
  · rw [key, List.length_append, length_restamp]; omega
  · rw [key, List.take_left]
  · intro i hi
    rw [key, List.getElem?_append_right (by omega), Nat.add_sub_cancel_left,
      getElem?_restamp, List.getElem?_eq_getElem hi]
    simp

/-- C10, at a snapshot of two messages: the loaded history has four entries. -/
theorem loadFromLocalStorage_replays_witness :
    (World.startup (some (.parsed { conversationHistory := some (sampleLog 2),
                                    tasks := some Tasks.empty })) false).storage =
      some (.parsed { conversationHistory := some (sampleLog 2), tasks := some Tasks.empty }) ∧
    (loadFromLocalStorage (fun _ => utf16 "later")
      (World.startup (some (.parsed { conversationHistory := some (sampleLog 2),
                                      tasks := some Tasks.empty })) false)
      ).appState.conversationHistory =
      [sampleMessage 0, sampleMessage 1,
       { sampleMessage 0 with timestamp := utf16 "later" },
       { sampleMessage 1 with timestamp := utf16 "later" }] :=
  ⟨rfl, (loadFromLocalStorage_replays (fun _ => utf16 "later")
    (World.startup (some (.parsed { conversationHistory := some (sampleLog 2),
                                    tasks := some Tasks.empty })) false)
    (sampleLog 2) Tasks.empty rfl).1.trans rfl⟩

/-- C2, evaluated at a state with a single message: saving and then loading into a
fresh page gives a history of two messages, the stored one and its replayed copy, so the
original history is not reproduced; the tasks are. -/
theorem saveThenLoad_duplicates :
    (sampleWorld [sampleMessage 104] Tasks.empty).appState.conversationHistory.length ≤ 50 ∧
    (saveThenLoad (fun _ => utf16 "later")
        (sampleWorld [sampleMessage 104] Tasks.empty)).appState.conversationHistory =
      [sampleMessage 104, { sampleMessage 104 with timestamp := utf16 "later" }] ∧
    (saveThenLoad (fun _ => utf16 "later")
        (sampleWorld [sampleMessage 104] Tasks.empty)).appState.conversationHistory ≠
      (sampleWorld [sampleMessage 104] Tasks.empty).appState.conversationHistory ∧
    (saveThenLoad (fun _ => utf16 "later")
        (sampleWorld [sampleMessage 104] Tasks.empty)).appState.tasks =
      (sampleWorld [sampleMessage 104] Tasks.empty).appState.tasks := by
  decide

/-! ## Handling the reply -/

/-- C6, evaluated at the message "hola" and the reply "nota guardada": the gate
`isTaskMessage` accepts the reply (it contains "nota"), `processTask` runs, and no
category receives a task, because the routing looks for the keywords in the user
message only. -/
theorem keyword_in_reply_creates_no_task :
    isTaskMessage asciiLower (utf16 "nota guardada") = true ∧
    callAPI (.body 200 true (utf16 "nota guardada") none) = .ok (utf16 "nota guardada") ∧
    (sendMessage_settled asciiLower (utf16 "hola")
        (.body 200 true (utf16 "nota guardada") none) (utf16 "t1") (utf16 "1/1/2025")
        (sendMessage (utf16 "hola") (utf16 "t0") (World.startup none false))).appState.tasks =
      { reminders := [], notes := [], calendar := [] } ∧
    (processTask asciiLower (utf16 "hola") (utf16 "nota guardada") (utf16 "1/1/2025")
        (World.startup none false)).appState.tasks =
      { reminders := [], notes := [], calendar := [] } :=
  ⟨by decide, rfl, by decide, by decide⟩

theorem callAPI_error_of_backendFails (outcome : FetchOutcome)
    (h : backendFails outcome = true) : ∃ e, callAPI outcome = .error e := by
  cases hc : callAPI outcome with
  | error e => exact ⟨e, rfl⟩
  | ok r =>
    exfalso
    cases outcome with
    | networkFailure => simp [callAPI] at hc
    | badBody status =>
      simp only [callAPI] at hc
      split at hc <;> simp at hc
    | body status success response error =>
      simp only [backendFails, Bool.or_eq_true] at h
      simp only [callAPI] at hc
      split at hc
      · simp at hc
      · rename_i hs
        have hsucc : success = false := by
          rcases h with h | h
          · exact absurd h hs
          · simpa using h
        subst hsucc
        simp only [Bool.false_eq_true, if_false] at hc
        split at hc
        · split at hc <;> simp at hc
        · simp at hc

theorem sendMessage_settled_of_error (toLowerCase : JSString → JSString) (text : JSString)
    (outcome : FetchOutcome) (now ts : JSString) (w : World) (e : ApiError)
    (h : callAPI outcome = .error e) :
    sendMessage_settled toLowerCase text outcome now ts w =
      sendMessage_finally (sendMessage_catch now w) := by
  simp [sendMessage_settled, h]

/-- C7. When the backend call fails (transport failure, status outside 200-299, or a
body with `success = false`, whatever its error text), handling the failure appends
exactly one bot message with the fixed error text, changes no task category, and the
finalizer runs: the result is `finally` applied after `catch`, the loading overlay is
hidden, and the state is persisted when the store accepts the write. -/
theorem sendMessage_failure (toLowerCase : JSString → JSString) (text : JSString)
    (outcome : FetchOutcome) (now ts : JSString) (w : World)
    (hfail : backendFails outcome = true) :
    (sendMessage_settled toLowerCase text outcome now ts w).appState.conversationHistory =
      w.appState.conversationHistory ++
        [{ type := utf16 "bot",
           content := utf16
             "❌ Lo siento, hubo un error al procesar tu mensaje. Por favor, intenta de nuevo.",
           timestamp := now }] ∧
    (sendMessage_settled toLowerCase text outcome now ts w).appState.tasks = w.appState.tasks ∧
    sendMessage_settled toLowerCase text outcome now ts w =
      saveToLocalStorage (hideLoading (addMessage (utf16 "bot") errorText now w)) ∧
    (sendMessage_settled toLowerCase text outcome now ts w).loading = false ∧
    (w.storageFull = false →
      Persisted (sendMessage_settled toLowerCase text outcome now ts w)) := by
  obtain ⟨e, he⟩ := callAPI_error_of_backendFails outcome hfail
  rw [sendMessage_settled_of_error toLowerCase text outcome now ts w e he]
  refine ⟨?_, ?_, rfl, ?_, ?_⟩
  · simp [sendMessage_finally, sendMessage_catch, hideLoading, addMessage, errorText]
  · simp [sendMessage_finally, sendMessage_catch, hideLoading, addMessage]
  · simp [sendMessage_finally, sendMessage_catch, hideLoading, addMessage]
  · intro hfull
    exact saveToLocalStorage_persisted _ (by simpa [hideLoading, sendMessage_catch, addMessage] using hfull)

/-- C7, at the text "hola" answered with HTTP 500: after the submission and the failed
call the history is the user message followed by the error message, no task exists and
the overlay is hidden. -/
theorem sendMessage_failure_witness :
    backendFails (.badBody 500) = true ∧
    (sendMessage_settled asciiLower (utf16 "hola") (.badBody 500) (utf16 "t1") (utf16 "d1")
        (sendMessage (utf16 "hola") (utf16 "t0") (World.startup none false))
      ).appState.conversationHistory =
      [{ type := utf16 "user", content := utf16 "hola", timestamp := utf16 "t0" },
       { type := utf16 "bot", content := errorText, timestamp := utf16 "t1" }] ∧
    (sendMessage_settled asciiLower (utf16 "hola") (.badBody 500) (utf16 "t1") (utf16 "d1")
        (sendMessage (utf16 "hola") (utf16 "t0") (World.startup none false))
      ).appState.tasks = Tasks.empty ∧
    (sendMessage_settled asciiLower (utf16 "hola") (.badBody 500) (utf16 "t1") (utf16 "d1")
        (sendMessage (utf16 "hola") (utf16 "t0") (World.startup none false))).loading = false :=
  ⟨rfl,
   (sendMessage_failure asciiLower (utf16 "hola") (.badBody 500) (utf16 "t1") (utf16 "d1")
      (sendMessage (utf16 "hola") (utf16 "t0") (World.startup none false)) rfl).1.trans
      (by decide),
   (sendMessage_failure asciiLower (utf16 "hola") (.badBody 500) (utf16 "t1") (utf16 "d1")
      (sendMessage (utf16 "hola") (utf16 "t0") (World.startup none false)) rfl).2.1.trans
      (by decide),
   (sendMessage_failure asciiLower (utf16 "hola") (.badBody 500) (utf16 "t1") (utf16 "d1")
      (sendMessage (utf16 "hola") (utf16 "t0") (World.startup none false)) rfl).2.2.2.1⟩

/-! ## Submitting -/

/-- C8. For a text that is empty or made only of whitespace, `sendMessage(text)` changes
nothing: history, tasks, issued requests and the store are as before.  For a text that
is non-empty after trimming, `sendMessage` appends exactly one user message with that
text at the end of the history, and does so before the backend call is issued: in the
state in which the call is issued the message is there and no request has been added
yet; on return exactly one request, carrying the text and the current mode, has been
added, and tasks and store are unchanged. -/
theorem sendMessage_guard (text now : JSString) (w : World) :
    ((∀ c ∈ text, isWhiteSpace c = true) → sendMessage text now w = w) ∧
    (trim text ≠ [] →
      (sendMessage_beforeCall text now w).appState.conversationHistory =
        w.appState.conversationHistory ++
          [{ type := utf16 "user", content := text, timestamp := now }] ∧
      (sendMessage_beforeCall text now w).requests = w.requests ∧
      sendMessage text now w = callAPI_issue text (sendMessage_beforeCall text now w) ∧
      (sendMessage text now w).appState.conversationHistory =
        w.appState.conversationHistory ++
          [{ type := utf16 "user", content := text, timestamp := now }] ∧
      (sendMessage text now w).requests =
        w.requests ++ [{ message := text, action := w.appState.currentMode }] ∧
      (sendMessage text now w).appState.tasks = w.appState.tasks ∧
      (sendMessage text now w).storage = w.storage) := by
  constructor
  · intro h
    have hr : rejectsText text = true := (rejectsText_iff text).mpr h
    simp [sendMessage, hr]
  · intro h
    have hr : rejectsText text = false := by
      cases hrt : rejectsText text with
      | false => rfl
      | true => exact absurd ((trim_eq_nil_iff text).mpr ((rejectsText_iff text).mp hrt)) h
    simp [sendMessage, hr, sendMessage_beforeCall, callAPI_issue, showLoading, addMessage,
      showChatView]

/-- C8, at the whitespace-only text of a blank and a line feed, and at "hola". -/
theorem sendMessage_guard_witness :
    sendMessage [0x20, 0x0A] (utf16 "t0") (sampleWorld (sampleLog 1) Tasks.empty) =
      sampleWorld (sampleLog 1) Tasks.empty ∧
    (sendMessage (utf16 "hola") (utf16 "t0")
        (sampleWorld (sampleLog 1) Tasks.empty)).appState.conversationHistory =
      [sampleMessage 0,
       { type := utf16 "user", content := utf16 "hola", timestamp := utf16 "t0" }] :=
  ⟨(sendMessage_guard [0x20, 0x0A] (utf16 "t0") (sampleWorld (sampleLog 1) Tasks.empty)).1
      (by decide),
   ((sendMessage_guard (utf16 "hola") (utf16 "t0")
      (sampleWorld (sampleLog 1) Tasks.empty)).2 (by decide)).2.2.2.1.trans (by decide)⟩

/-! ## Persistence after mutations -/

/-- C9, refuted as stated.  On a page whose store agrees with memory, the synchronous
part of `sendMessage("hola")` appends the user message and returns with the backend call
pending, and the store still holds the old snapshot.  And on a store that rejects
writes, a confirmed `clearChat` empties the history while the store keeps the old one. -/
theorem submit_leaves_store_stale :
    Persisted (saveToLocalStorage (World.startup none false)) ∧
    (sendMessage (utf16 "hola") (utf16 "t0")
        (saveToLocalStorage (World.startup none false))).appState.conversationHistory =
      [{ type := utf16 "user", content := utf16 "hola", timestamp := utf16 "t0" }] ∧
    (sendMessage (utf16 "hola") (utf16 "t0")
        (saveToLocalStorage (World.startup none false))).requests =
      [{ message := utf16 "hola", action := none }] ∧
    (sendMessage (utf16 "hola") (utf16 "t0")
        (saveToLocalStorage (World.startup none false))).storage =
      some (.parsed { conversationHistory := some [], tasks := some Tasks.empty }) ∧
    ¬ Persisted (sendMessage (utf16 "hola") (utf16 "t0")
        (saveToLocalStorage (World.startup none false))) ∧
    Persisted fullStoreWorld ∧
    (clearChat true fullStoreWorld).appState.conversationHistory = [] ∧
    ¬ Persisted (clearChat true fullStoreWorld) := by
  decide

/-- C9, amended.  Each of `processTask`, a confirmed `deleteTask`, a confirmed
`clearChat`, a confirmed `clearAllTasks` and the handling of a settled backend call
(bot or error message, task creation, finalizer) ends with a persistence write: when
the store accepts the write, after the operation the stored snapshot is the last 50
messages of the in-memory log together with the in-memory tasks.  The synchronous part
of `sendMessage` (appending the user message, issuing the backend call) performs no
persistence write: it returns with the store exactly as it found it. -/
theorem mutations_persisted (toLowerCase : JSString → JSString) (w : World)
    (haccepts : w.storageFull = false) :
    (∀ u b ts, Persisted (processTask toLowerCase u b ts w)) ∧
    (∀ c i, Persisted (deleteTask c i true w)) ∧
    Persisted (clearChat true w) ∧
    Persisted (clearAllTasks true w) ∧
    (∀ text outcome now ts, Persisted (sendMessage_settled toLowerCase text outcome now ts w)) ∧
    (∀ text now, (sendMessage text now w).storage = w.storage) := by
  have hproc : ∀ u b ts (v : World), v.storageFull = false →
      Persisted (processTask toLowerCase u b ts v) := by
    intro u b ts v hv
    unfold processTask
    exact saveToLocalStorage_persisted _ (by simpa [updateTasksUI] using hv)
  refine ⟨fun u b ts => hproc u b ts w haccepts, ?_, ?_, ?_, ?_, ?_⟩
  · intro c i
    simp only [deleteTask, if_true]
    exact saveToLocalStorage_persisted _ (by simpa [updateTasksUI] using haccepts)
  · simp only [clearChat, if_true]
    exact saveToLocalStorage_persisted _ (by simpa using haccepts)
  · simp only [clearAllTasks, if_true]
    exact saveToLocalStorage_persisted _ (by simpa [updateTasksUI] using haccepts)
  · intro text outcome now ts
    unfold sendMessage_settled
    split
    · unfold sendMessage_finally
      apply saveToLocalStorage_persisted
      simp only [hideLoading, sendMessage_then]
      split
      · simp only [processTask, saveToLocalStorage_storageFull, updateTasksUI, addMessage]
        exact haccepts
      · simpa [addMessage] using haccepts
    · unfold sendMessage_finally
      exact saveToLocalStorage_persisted _
        (by simpa [hideLoading, sendMessage_catch, addMessage] using haccepts)
  · intro text now
    unfold sendMessage
    split
    · rfl
    · simp [callAPI_issue, sendMessage_beforeCall, showLoading, addMessage, showChatView]

/-- C9 amended, at a page with two reminders: after a confirmed `deleteTask` the store
holds the remaining reminder. -/
theorem mutations_persisted_witness :
    (sampleWorld [] { reminders := [sampleTask 1, sampleTask 2], notes := [],
                      calendar := [] }).storageFull = false ∧
    (deleteTask .reminders 0 true
        (sampleWorld [] { reminders := [sampleTask 1, sampleTask 2], notes := [],
                          calendar := [] })).storage =
      some (.parsed { conversationHistory := some [],
                      tasks := some { reminders := [sampleTask 2], notes := [],
                                      calendar := [] } }) :=
  ⟨rfl, ((mutations_persisted asciiLower
    (sampleWorld [] { reminders := [sampleTask 1, sampleTask 2], notes := [],
                      calendar := [] }) rfl).2.1 .reminders 0).trans (by decide)⟩

end ClaroAsistente
